import Mathlib

/-
Verification of the step-driven expect automaton and result-validation layer
of naghelp (src/naghelp/collect.py), as a shallow embedding in Lean 4.

Conventions of the embedding:
* Python strings are Lean `String`s.
* Python `None` parameters become `Option`.
* The regular expressions that the claims exercise are a literal substring
  search (for example the pattern "<timeout>") and the class `\S`
  ("any non-whitespace character"); they are embedded as the inductive `RPat`
  with `re.search` semantics given by `rsearch`.
* Raising an exception becomes returning `Except.error`.
-/

namespace Naghelp

/-- The fragment of the regular-expression language that the collect module
uses for `expected_pattern` / `unexpected_pattern`: a literal string searched
as a substring, or the class `\S` (the default expected pattern). -/
inductive RPat where
  | nonspace : RPat
  | lit : String → RPat
deriving Repr, DecidableEq

/-- Python whitespace for the `\S` class: space, tab, newline, carriage
return, vertical tab (11) and form feed (12). -/
def isPySpace (c : Char) : Bool :=
  c == ' ' || c == '\t' || c == '\n' || c == '\r' || c.toNat == 11 || c.toNat == 12

/-- Whether the first list starts with the second one. -/
def listStartsWith : List Char → List Char → Bool
  | _, [] => true
  | [], _ :: _ => false
  | c :: s, d :: p => c == d && listStartsWith s p

/-- Whether `p` occurs as a contiguous sublist of the second list
(`p = []` occurs everywhere). -/
def listContains (p : List Char) : List Char → Bool
  | [] => listStartsWith [] p
  | c :: s => listStartsWith (c :: s) p || listContains p s

/-- Semantics of `re.search(pattern, s)` for the embedded fragment: `\S`
matches iff some character is not whitespace; a literal pattern matches iff it
occurs as a substring (the empty literal matches everything). -/
def rsearch : RPat → String → Bool
  | RPat.nonspace, s => s.data.any (fun c => !(isPySpace c))
  | RPat.lit p, s => listContains p.data s.data

/-- The `.pattern` attribute of the compiled pattern: its source text. -/
def RPat.source : RPat → String
  | RPat.nonspace => "\\S"
  | RPat.lit p => p

/-- The payload of `UnexpectedResultError` as built by
`_raise_unexpected_result`: the key and command it cites, the help string of
the failing check, and the rendering of the offending result. -/
structure UnexpectedResultError where
  key : String
  cmd : String
  helpStr : String
  display : String
deriving Repr, DecidableEq

/-- Rendering of the result inside `_raise_unexpected_result`: an empty
string is displayed as `<empty result>`, any other string is truncated to its
first 80 lines followed by an ellipsis line. -/
def displayResult (result : String) : String :=
  if result = "" then "<empty result>"
  else String.intercalate "\n" ((result.splitOn "\n").take 80) ++ "\n..."

/-- Embedding of `_raise_unexpected_result(result, key, cmd, help_str)`. -/
def raiseUnexpectedResult (result key cmd helpStr : String) : UnexpectedResultError :=
  { key := key, cmd := cmd, helpStr := helpStr, display := displayResult result }

/-- The final exception message assembled by `_raise_unexpected_result`. -/
def UnexpectedResultError.message (e : UnexpectedResultError) : String :=
  "Unexpected result " ++ (if e.key = "" then "" else "for command key \"" ++ e.key ++ "\"") ++
  "\nCommand = " ++ e.cmd ++ "\n" ++ e.helpStr ++ "\n\n" ++ e.display ++
  "\n\nNOTE : Due to nagios restrictions, pipe symbol has been replaced by \"!\""

/-- Modelled from the spec: `textops.findhighlight(pattern, line_nbr=True,
nlines=5)` is an external text-processing collaborator; the spec says the
diagnostic includes a short excerpt of the first 5 matching lines of context
around the match. Its exact rendering is irrelevant to every claim. -/
def findhighlight (pat : RPat) (result : String) : String :=
  String.intercalate "\n" (((result.splitOn "\n").filter (fun l => rsearch pat l)).take 5)

/-- Help string of the unexpected-pattern branch of `_filter_result`. -/
def helpFound (up : RPat) (result : String) : String :=
  "-> found the pattern \"" ++ up.source ++ "\" :\n\n" ++ findhighlight up result

/-- A `filter` callback: it receives `result, key, cmd` and may return a
replacement for the result (`None` keeps the original). -/
def FilterFn : Type := String → String → String → Option String

/-- The transform phase of `_filter_result`: apply the filter function when
one is supplied and keep its result unless it returned `None`. -/
def applyFilterFunc (f : Option FilterFn) (result key cmd : String) : String :=
  match f with
  | Option.none => result
  | Option.some g =>
      match g result key cmd with
      | Option.none => result
      | Option.some replaced => replaced

/-- The error text of a failed expected-pattern check: `-> empty result` when
the pattern source is the default `\S`, the missing pattern otherwise. -/
def helpMissing (ep : RPat) : String :=
  if ep.source = "\\S" then "-> empty result"
  else "-> cannot find the pattern \"" ++ ep.source ++ "\""

/-- The expected-pattern phase of `_filter_result`: when a pattern is set and
does not match, raise with the missing-pattern error text. -/
def checkExpected (result key cmd : String) (expected : Option RPat) :
    Except UnexpectedResultError String :=
  match expected with
  | Option.none => Except.ok result
  | Option.some ep =>
      if rsearch ep result then Except.ok result
      else Except.error (raiseUnexpectedResult result key cmd (helpMissing ep))

/-- Embedding of `_filter_result(result, key, cmd, expected_pattern,
unexpected_pattern, filter_func)`: apply the filter function, then fail if
the unexpected pattern is set and matches a non-empty result (Python
truthiness of `result` guards the check), then fail if the expected pattern
is set and does not match; otherwise return the (possibly transformed)
result. In the source the defaults are `expected_pattern=r'\S'` and
`unexpected_pattern=None`. -/
def filterResult (result key cmd : String) (expected unexpected : Option RPat)
    (filterFunc : Option FilterFn) : Except UnexpectedResultError String :=
  let r := applyFilterFunc filterFunc result key cmd
  match unexpected with
  | Option.none => checkExpected r key cmd expected
  | Option.some up =>
      if r ≠ "" ∧ rsearch up r then
        Except.error (raiseUnexpectedResult r key cmd (helpFound up r))
      else checkExpected r key cmd expected

/-! ## The step engine `Expect._expect_steps`

The engine drives a pexpect child through a step sequence.  A step is a
`(pattern, response)` pair; a group is the list of alternative steps at one
position (the source normalizes a bare pair into a one-element group before
entering the loop, which the embedding takes as already done).  The child is
the external transport: each call to `child.expect(patterns)` either returns
the index of the matched pattern together with the text read before the match
(`child.before`), or raises `pexpect.EOF`.  It is embedded as an oracle
script: a list of match events, an exhausted script standing for end of
stream.  Response strings are template-expanded with `str.format` against the
context mapping, embedded as an abstract `fmt : String → String`. -/

/-- A step response: `noSend` is Python `None`, `send` a literal string, and
`kill`, `brk`, `response` the control sentinels `Expect.KILL` (1),
`Expect.BREAK` (2), `Expect.RESPONSE` (3). -/
inductive Resp where
  | noSend : Resp
  | send : String → Resp
  | kill : Resp
  | brk : Resp
  | response : Resp
deriving Repr, DecidableEq

/-- One step: an optional pattern source (Python `None` is the sentinel
pattern) and a response. -/
structure ExStep where
  pattern : Option String
  resp : Resp
deriving Repr, DecidableEq

/-- A group of alternative steps at one automaton position. -/
abbrev StepGroup := List ExStep

/-- A step sequence: the ordered list of groups. -/
abbrev Steps := List StepGroup

/-- One answer of `child.expect`: the index of the matched pattern in the
submitted list and the text consumed before the match (`child.before`). -/
structure ChildEv where
  idx : Nat
  before : String
deriving Repr, DecidableEq

/-- A rewritten pattern as passed to `child.expect`: `_expect_pattern_rewrite`
maps `None` to `pexpect.EOF` and any string through the caret rewrite. -/
inductive ExpPat where
  | eof : ExpPat
  | re : String → ExpPat
deriving Repr, DecidableEq

/-- Embedding of `re.sub(r'^\^', r'[\r\n]', pat)`: the pattern `^\^` is
anchored at the start of the string (no MULTILINE flag), so exactly a single
leading caret is replaced by the line-break character class `[\r\n]`. -/
def rewriteCaret (pat : String) : String :=
  if pat.data.head? = Option.some '^' then "[\\r\\n]" ++ pat.drop 1 else pat

/-- Embedding of `Expect._expect_pattern_rewrite`. -/
def expectPatternRewrite (pat : Option String) : ExpPat :=
  match pat with
  | Option.none => ExpPat.eof
  | Option.some p => ExpPat.re (rewriteCaret p)

/-- A compiled Telnet pattern: source text plus the IGNORECASE flag. -/
structure TelPat where
  source : String
  ignoreCase : Bool
deriving Repr, DecidableEq

/-- Embedding of `Telnet._normalize_pattern(pattern, default)` restricted to
the `None` and string cases: `None` compiles the default with IGNORECASE, a
string gets the leading-caret rewrite (same `re.sub` as the Expect engine)
and no flag. (A pre-compiled pattern or a list is wrapped unchanged.) -/
def telnetNormalizePattern (pattern : Option String) (dflt : String) : List TelPat :=
  match pattern with
  | Option.none => [{ source := dflt, ignoreCase := true }]
  | Option.some p => [{ source := rewriteCaret p, ignoreCase := false }]

/-- The mutable state of the engine loop: the step cursor, the
`infinite_loop_detect` counter, the remaining oracle script, the log of
strings sent to the child, the characters of the current `child.before`
bytes buffer (empty before the first expect) and whether `child.kill(0)` has
been invoked — inside `_expect_steps` the kill line is unreachable, because
the `TypeError` on `child.before+'.'` fires first, so the flag can only stay
at its initial value. -/
structure EngineSt where
  step : Nat
  loopDetect : Nat
  script : List ChildEv
  sent : List String
  before : String
  killed : Bool
deriving Repr, DecidableEq

/-- Outcome of `_expect_steps`: `ok` is the empty-string success return (loop
finished or `BREAK`); `errType` is the uncaught `TypeError` the `KILL` and
`RESPONSE` branches raise when computing `return_msg = self.child.before+'.'`
— `pexpect.spawn` is opened without an encoding, so `child.before` is
`bytes` (`_run_cmd` has to decode it) and concatenating the `str` literal
fails before `child.kill(0)` or the `return` can run; `errEOF` is the
`CollectError` "No more data (EOF) from ..." raised on `pexpect.EOF`;
`errTooMany` is the `CollectError` "Too many expect for ..." raised by the
loop-detection guard; `badIndex` is an out-of-range match index (unreachable
with a real pexpect child); `stuck` means the fuel ran out while the while
loop was still running. -/
inductive StepsRes where
  | ok : StepsRes
  | errType : StepsRes
  | errEOF : StepsRes
  | errTooMany : StepsRes
  | badIndex : StepsRes
  | stuck : StepsRes
deriving Repr, DecidableEq

/-- Result of one iteration of the while loop: either the loop terminates
with a result, or it continues with an updated state. -/
inductive IterOut where
  | done : StepsRes → EngineSt → IterOut
  | cont : EngineSt → IterOut
deriving Repr, DecidableEq

/-- The source test `nb_base_expects == 1 and expects[0][0] is None`: the
group is a single step whose pattern is the `None` sentinel. -/
def isNoneGroup (g : StepGroup) : Bool :=
  match g with
  | [stp] => stp.pattern.isNone
  | _ => false

/-- The candidate step list submitted to `child.expect` at position `i`: the
current group followed by the next group (lookahead) unless the current group
is the last one (`steps[i+1]?` is absent exactly when `i+1 >= nb_steps`). -/
def candidates (steps : Steps) (i : Nat) : List ExStep :=
  (steps[i]?).getD [] ++ (steps[i + 1]?).getD []

/-- Tail of one loop iteration after the response has been handled: advance
the cursor and reset the counter when the match index falls in the lookahead
range (`found >= nb_base_expects`), breaking out when the new cursor is the
last step; then increment the loop counter and fail once it exceeds 10. -/
def advanceCheck (steps : Steps) (nbBase found : Nat) (st : EngineSt) : IterOut :=
  let st1 := if nbBase ≤ found then { st with step := st.step + 1, loopDetect := 0 } else st
  if nbBase ≤ found ∧ st1.step = steps.length - 1 then IterOut.done StepsRes.ok st1
  else
    let st2 := { st1 with loopDetect := st1.loopDetect + 1 }
    if 10 < st2.loopDetect then IterOut.done StepsRes.errTooMany st2 else IterOut.cont st2

/-- Middle of one loop iteration, from `to_send = expects[found][1]` on: send
a literal response (template-expanded; `sendline` versus `send` transmit the
same text), or act on a control sentinel.  `BREAK` leaves the loop returning
success.  `KILL` and `RESPONSE` first compute
`return_msg = self.child.before+'.'`: `child.before` is `bytes` in this
Python-3 port (the spawn has no encoding), so that line raises `TypeError`
before `child.kill(0)` (KILL) or the `return` (RESPONSE) is reached — the
child is not killed, no payload is returned, and the uncaught `TypeError`
propagates out of `_expect_steps`. -/
def afterMatch (fmt : String → String) (steps : Steps) (nbBase found : Nat)
    (expects2 : List ExStep) (st : EngineSt) : IterOut :=
  match expects2[found]? with
  | Option.none => IterOut.done StepsRes.badIndex st
  | Option.some stp =>
      match stp.resp with
      | Resp.kill => IterOut.done StepsRes.errType st
      | Resp.brk => IterOut.done StepsRes.ok st
      | Resp.response => IterOut.done StepsRes.errType st
      | Resp.noSend => advanceCheck steps nbBase found st
      | Resp.send s => advanceCheck steps nbBase found { st with sent := st.sent ++ [fmt s] }

/-- One iteration of the `while step < nb_steps` loop of `_expect_steps`.  A
group that is the `None`-pattern sentinel performs no `child.expect` call and
proceeds with `found = 0` and no lookahead; any other group submits its own
patterns followed by the lookahead patterns, an exhausted stream raising the
EOF `CollectError`. -/
def stepIter (fmt : String → String) (steps : Steps) (st : EngineSt) : IterOut :=
  match steps[st.step]? with
  | Option.none => IterOut.done StepsRes.ok st
  | Option.some expects =>
      if isNoneGroup expects then
        afterMatch fmt steps expects.length 0 expects st
      else
        match st.script with
        | [] => IterOut.done StepsRes.errEOF st
        | e :: rest =>
            afterMatch fmt steps expects.length e.idx (candidates steps st.step)
              { st with script := rest, before := e.before }

/-- Embedding of `Expect._expect_steps(steps)`: iterate `stepIter` with
fuel standing for the non-termination of the Python while loop. -/
def runSteps (fmt : String → String) (steps : Steps) :
    Nat → EngineSt → StepsRes × EngineSt
  | 0, st => (StepsRes.stuck, st)
  | fuel + 1, st =>
      match stepIter fmt steps st with
      | IterOut.done r st2 => (r, st2)
      | IterOut.cont st2 => runSteps fmt steps fuel st2

/-- The engine state at entry of `_expect_steps`: cursor 0, counter 0, a
given oracle script, nothing sent, empty `before`, child alive. -/
def initSt (script : List ChildEv) : EngineSt :=
  { step := 0, loopDetect := 0, script := script, sent := [], before := "", killed := false }

/-- A response that neither short-circuits the loop nor is skipped: `None` or
a literal send. -/
def benign : Resp → Bool
  | Resp.noSend => true
  | Resp.send _ => true
  | _ => false

/-- The oracle event matches inside the own range of group `g` and the
matched step has a benign response, so the iteration stays at the same step
and keeps looping. -/
def ownBenign (g : StepGroup) (e : ChildEv) : Bool :=
  match g[e.idx]? with
  | Option.some stp => benign stp.resp
  | Option.none => false

/-! ## The session layer `Expect.run` / `Expect.mrun` / `Expect.close`

`_run_cmd` sends one command and reads up to the prompt; wrapped in
`Timeout(seconds=timeout)` it either completes with the captured output or is
interrupted by `TimeoutError`.  That whole per-command round trip is embedded
as the oracle `CmdRun`: `done out` is a completed read with stripped output
`out`, `timedout` is a per-command deadline expiry, which the source replaces
by the sentinel string `<timeout>`. -/

/-- Outcome of one `_run_cmd` call under its per-command `Timeout`. -/
inductive CmdRun where
  | done : String → CmdRun
  | timedout : CmdRun
deriving Repr, DecidableEq

/-- The result text the `try`/`except TimeoutError` around `_run_cmd`
produces: the captured output, or the `<timeout>` sentinel on expiry. -/
def runOut : CmdRun → String
  | CmdRun.done o => o
  | CmdRun.timedout => "<timeout>"

/-- A per-call parameter of `run`/`mrun` that defaults to the magic value `0`
meaning "inherit the object-level attribute". -/
inductive Override (α : Type) where
  | inherit : Override α
  | use : α → Override α

/-- Resolve a per-call parameter against the object-level attribute
(`x if x != 0 else self.attr`). -/
def Override.resolve {α : Type} : Override α → α → α
  | Override.inherit, dflt => dflt
  | Override.use a, _ => a

/-- The session state of an `Expect` object that the run/close life cycle
reads and writes: the `is_connected` and `in_with` flags and the object-level
validation attributes.  The constructor defaults are
`expected_pattern=r'\S'`, `unexpected_pattern=r'<timeout>'`, `filter=None`,
and `in_with=False` outside a `with` block. -/
structure ExpectSess where
  is_connected : Bool
  in_with : Bool
  expected_pattern : Option RPat
  unexpected_pattern : Option RPat
  filterFunc : Option FilterFn

/-- A freshly connected `Expect` object with the constructor defaults. -/
def defaultSess : ExpectSess :=
  { is_connected := true, in_with := false,
    expected_pattern := Option.some RPat.nonspace,
    unexpected_pattern := Option.some (RPat.lit "<timeout>"),
    filterFunc := Option.none }

/-- Embedding of `Expect.close`: outside a `with` block it clears
`is_connected`, runs the logout command and steps and kills the child; inside
a `with` block it does nothing.  Only the flag matters to the session state
machine. -/
def closeSess (s : ExpectSess) : ExpectSess :=
  if s.in_with then s else { s with is_connected := false }

/-- The errors `run`/`mrun` can raise: `NotConnected` (a `CollectError`
subclass) with its message, or the `UnexpectedResultError` propagated from
`_filter_result`. -/
inductive CollectErr where
  | notConnected : String → CollectErr
  | unexpected : UnexpectedResultError → CollectErr
deriving Repr, DecidableEq

/-- Embedding of `Expect.run(cmd, timeout, auto_close, expected_pattern,
unexpected_pattern, filter)`: raise `NotConnected` when the session is not
connected; otherwise take the command output, substituting the `<timeout>`
sentinel when the per-command deadline expired; close the session when
`auto_close` is set (before the result is validated, so the session is closed
even when validation raises); finally validate through `_filter_result` with
the per-call parameters resolved against the object-level attributes. -/
def Expect.run (s : ExpectSess) (cmd : String) (oracle : CmdRun) (auto_close : Bool)
    (ep up : Override (Option RPat)) (ff : Override (Option FilterFn)) :
    ExpectSess × Except CollectErr String :=
  if s.is_connected then
    let s2 := if auto_close then closeSess s else s
    (s2, (filterResult (runOut oracle) "" cmd (ep.resolve s.expected_pattern)
            (up.resolve s.unexpected_pattern) (ff.resolve s.filterFunc)).mapError
          CollectErr.unexpected)
  else (s, Except.error (CollectErr.notConnected "No expect connection to run your command."))

/-- The `for k, cmd in cmds` loop of `Expect.mrun`: each command is run under
its own per-command `Timeout`, a deadline expiry substituting the
`<timeout>` sentinel for that command only; a command with a falsy (empty)
key is run but its result is discarded; the validated results are accumulated
in input order; an `UnexpectedResultError` raised by `_filter_result`
propagates and aborts the remaining commands. -/
def mrunLoop (oracle : String → CmdRun) (ep up : Option RPat) (ff : Option FilterFn) :
    List (String × String) → Except UnexpectedResultError (List (String × String))
  | [] => Except.ok []
  | (k, cmd) :: rest =>
      if k = "" then mrunLoop oracle ep up ff rest
      else
        match filterResult (runOut (oracle cmd)) k cmd ep up ff with
        | Except.error e => Except.error e
        | Except.ok v =>
            match mrunLoop oracle ep up ff rest with
            | Except.error e => Except.error e
            | Except.ok tail => Except.ok ((k, v) :: tail)

/-- Embedding of `Expect.mrun(cmds, timeout, auto_close, ...)`: raise
`NotConnected` when the session is not connected, otherwise run the loop.
`self.close()` runs only after the loop, so an `UnexpectedResultError` raised
mid-batch leaves the session unchanged, while a completed batch closes the
session when `auto_close` is set. -/
def Expect.mrun (s : ExpectSess) (cmds : List (String × String)) (oracle : String → CmdRun)
    (auto_close : Bool) (ep up : Override (Option RPat)) (ff : Override (Option FilterFn)) :
    ExpectSess × Except CollectErr (List (String × String)) :=
  if s.is_connected then
    match mrunLoop oracle (ep.resolve s.expected_pattern) (up.resolve s.unexpected_pattern)
        (ff.resolve s.filterFunc) cmds with
    | Except.error e => (s, Except.error (CollectErr.unexpected e))
    | Except.ok lst => ((if auto_close then closeSess s else s), Except.ok lst)
  else (s, Except.error (CollectErr.notConnected "No expect connection to run your command."))

/-- Whether an `Except` value is a success. -/
def exceptIsOk {ε α : Type} : Except ε α → Bool
  | Except.ok _ => true
  | Except.error _ => false

/-! ## Theorems for the claims -/

/-- C5: with the default expected pattern `\S`, validating an empty result
raises `UnexpectedResultError` whose diagnostic cites an empty result (help
string `-> empty result`, rendering `<empty result>`); with the expected
pattern explicitly absent the check is disabled, so an empty result with no
unexpected match succeeds, whatever the unexpected pattern is. -/
theorem claim_C5_empty_result_validation :
    (∀ k c : String,
      filterResult "" k c (Option.some RPat.nonspace) Option.none Option.none =
        Except.error
          { key := k, cmd := c, helpStr := "-> empty result", display := "<empty result>" }) ∧
    (∀ (k c : String) (up : Option RPat),
      filterResult "" k c Option.none up Option.none = Except.ok "") := by
  have hsearch : rsearch RPat.nonspace "" = false := by decide
  constructor
  · intro k c
    simp [filterResult, applyFilterFunc, checkExpected, hsearch, helpMissing, RPat.source,
      raiseUnexpectedResult, displayResult]
  · intro k c up
    cases up with
    | none => simp [filterResult, applyFilterFunc, checkExpected]
    | some u => simp [filterResult, applyFilterFunc, checkExpected]

/-- C10: whenever the (possibly transformed) result is empty — the only falsy
string — the unexpected-pattern check is skipped entirely, so the outcome of
`_filter_result` does not depend on the unexpected pattern at all: an empty
result can only fail through the expected-pattern branch. -/
theorem claim_C10_empty_skips_unexpected
    (result key cmd : String) (ep up : Option RPat) (ff : Option FilterFn)
    (h : applyFilterFunc ff result key cmd = "") :
    filterResult result key cmd ep up ff = filterResult result key cmd ep Option.none ff := by
  cases up with
  | none => rfl
  | some u => simp [filterResult, h]

/-- C10 witness: an unexpected pattern that matches the empty string (the
empty literal matches everything) cannot make an empty result fail. -/
theorem claim_C10_empty_skips_unexpected_witness :
    filterResult "" "k" "c" (Option.some RPat.nonspace) (Option.some (RPat.lit "")) Option.none =
      filterResult "" "k" "c" (Option.some RPat.nonspace) Option.none Option.none :=
  claim_C10_empty_skips_unexpected "" "k" "c" (Option.some RPat.nonspace)
    (Option.some (RPat.lit "")) Option.none rfl

/-- Helper: a successful expected-pattern check returns its input. -/
theorem checkExpected_ok_eq {r key cmd : String} {ep : Option RPat} {v : String}
    (h : checkExpected r key cmd ep = Except.ok v) : v = r := by
  cases ep with
  | none => exact (Except.ok.inj h).symm
  | some e =>
      simp only [checkExpected] at h
      split at h
      · exact (Except.ok.inj h).symm
      · exact Except.noConfusion h

/-- Helper: a value that passed the expected-pattern check passes it again. -/
theorem checkExpected_idem {r key cmd : String} {ep : Option RPat} {v : String}
    (h : checkExpected r key cmd ep = Except.ok v) :
    checkExpected v key cmd ep = Except.ok v := by
  have hv := checkExpected_ok_eq h
  subst hv
  exact h

/-- C6: `_filter_result` applies its phases in the fixed order transform,
unexpected pattern, expected pattern.  (a) The checks are run on the
transformed text: validating with a filter function equals validating its
output with no filter.  (b) A matching unexpected pattern on a non-empty
result fails with the found-pattern diagnostic whatever the expected pattern
is, so an unexpected match wins over a missing expected pattern.  (c) An
input that passes both checks is returned unchanged.  (d) Hence validation is
idempotent: a value a validation run returned validates to itself. -/
theorem claim_C6_validation_order_idempotent :
    (∀ (result key cmd : String) (ep up : Option RPat) (f : FilterFn),
      filterResult result key cmd ep up (Option.some f) =
        filterResult (applyFilterFunc (Option.some f) result key cmd) key cmd ep up
          Option.none) ∧
    (∀ (r key cmd : String) (ep : Option RPat) (u : RPat),
      r ≠ "" → rsearch u r = true →
      filterResult r key cmd ep (Option.some u) Option.none =
        Except.error (raiseUnexpectedResult r key cmd (helpFound u r))) ∧
    (∀ (r key cmd : String) (e u : RPat),
      rsearch e r = true → ¬(r ≠ "" ∧ rsearch u r = true) →
      filterResult r key cmd (Option.some e) (Option.some u) Option.none = Except.ok r) ∧
    (∀ (r key cmd : String) (ep up : Option RPat) (ff : Option FilterFn) (v : String),
      filterResult r key cmd ep up ff = Except.ok v →
      filterResult v key cmd ep up Option.none = Except.ok v) := by
  refine ⟨fun result key cmd ep up f => rfl, ?_, ?_, ?_⟩
  · intro r key cmd ep u h1 h2
    simp [filterResult, applyFilterFunc, h1, h2]
  · intro r key cmd e u h1 h2
    simp only [filterResult, applyFilterFunc]
    rw [if_neg h2]
    simp [checkExpected, h1]
  · intro r key cmd ep up ff v h
    cases up with
    | none =>
        simp only [filterResult, applyFilterFunc] at h ⊢
        exact checkExpected_idem h
    | some u =>
        simp only [filterResult, applyFilterFunc] at h ⊢
        split at h
        · cases h
        · next hcond =>
            have hv := checkExpected_ok_eq h
            subst hv
            rw [if_neg hcond]
            exact checkExpected_idem h

/-- C6 witness: an unexpected match beats the expected check and produces the
found-pattern diagnostic; a valid value is returned unchanged and validating
it again yields the same value. -/
theorem claim_C6_validation_order_idempotent_witness :
    filterResult "ERROR: disk full" "k" "c" (Option.some RPat.nonspace)
        (Option.some (RPat.lit "ERROR")) Option.none =
      Except.error (raiseUnexpectedResult "ERROR: disk full" "k" "c"
        (helpFound (RPat.lit "ERROR") "ERROR: disk full")) ∧
    filterResult "OK" "k" "c" (Option.some (RPat.lit "OK"))
        (Option.some (RPat.lit "<timeout>")) Option.none = Except.ok "OK" :=
  ⟨claim_C6_validation_order_idempotent.2.1 "ERROR: disk full" "k" "c"
      (Option.some RPat.nonspace) (RPat.lit "ERROR") (by decide) (by decide),
   claim_C6_validation_order_idempotent.2.2.2 "OK" "k" "c"
      (Option.some (RPat.lit "OK")) (Option.some (RPat.lit "<timeout>")) Option.none "OK"
      (claim_C6_validation_order_idempotent.2.2.1 "OK" "k" "c" (RPat.lit "OK")
        (RPat.lit "<timeout>") (by decide) (by decide))⟩

/-- C8: pattern normalization replaces exactly a leading caret anchor by the
line-break character class `[\r\n]` (so the compiled pattern matches only
immediately after a line break), passes strings without a leading caret
through unchanged, and both `Expect._expect_pattern_rewrite` and
`Telnet._normalize_pattern` apply this rewrite to string patterns. -/
theorem claim_C8_caret_rewrite :
    (∀ p : String, p.data.head? = Option.some '^' → rewriteCaret p = "[\\r\\n]" ++ p.drop 1) ∧
    (∀ p : String, p.data.head? ≠ Option.some '^' → rewriteCaret p = p) ∧
    (∀ p : String, expectPatternRewrite (Option.some p) = ExpPat.re (rewriteCaret p)) ∧
    (∀ p d : String, telnetNormalizePattern (Option.some p) d =
      [{ source := rewriteCaret p, ignoreCase := false }]) := by
  refine ⟨fun p h => ?_, fun p h => ?_, fun p => rfl, fun p d => rfl⟩
  · simp [rewriteCaret, h]
  · simp [rewriteCaret, h]

/-- C8 witness: the rewrite at the concrete patterns `^\$ ` and `login: `. -/
theorem claim_C8_caret_rewrite_witness :
    rewriteCaret "^\\$ " = "[\\r\\n]" ++ "^\\$ ".drop 1 ∧ rewriteCaret "login: " = "login: " :=
  ⟨claim_C8_caret_rewrite.1 "^\\$ " (by decide),
   claim_C8_caret_rewrite.2.1 "login: " (by decide)⟩

/-- Helper: an exhausted stream at a searching group fails with the
end-of-stream error. -/
theorem eof_at_search (fmt : String → String) (steps : Steps) (st : EngineSt)
    (fuel : Nat) (g : StepGroup)
    (h1 : steps[st.step]? = Option.some g)
    (h2 : isNoneGroup g = false)
    (h3 : st.script = []) :
    (runSteps fmt steps (fuel + 1) st).1 = StepsRes.errEOF := by
  simp [runSteps, stepIter, h1, h2, h3]

/-- C7: whenever the engine is at a searching group (not the
unconditional-pass sentinel group) and the stream ends before any candidate
pattern of the current search appears — the oracle script is exhausted — the
engine returns the end-of-stream `CollectError` (the embedded `errEOF`)
rather than hanging or reporting success. -/
theorem claim_C7_stream_end_fails (fmt : String → String) (steps : Steps) (st : EngineSt)
    (fuel : Nat) (g : StepGroup)
    (h1 : steps[st.step]? = Option.some g)
    (h2 : isNoneGroup g = false)
    (h3 : st.script = []) :
    (runSteps fmt steps (fuel + 1) st).1 = StepsRes.errEOF :=
  eof_at_search fmt steps st fuel g h1 h2 h3

/-- C7 witness: a one-group sequence whose pattern never appears in the
(empty) stream fails with the end-of-stream error. -/
theorem claim_C7_stream_end_fails_witness :
    (runSteps id [[{ pattern := Option.some "\\$ ", resp := Resp.noSend }]] 1 (initSt [])).1 =
      StepsRes.errEOF :=
  claim_C7_stream_end_fails id [[{ pattern := Option.some "\\$ ", resp := Resp.noSend }]]
    (initSt []) 0 [{ pattern := Option.some "\\$ ", resp := Resp.noSend }]
    (by decide) (by decide) rfl

/-- C4 (code bug): the claim — and the class docstring, which documents
`BREAK` to stop following the steps, `RESPONSE` to raise an error with the
captured text as message and `KILL` to do the same but also kill the spawned
command — describe the intended behavior, but this Python-3 port spawns the
child without an encoding, so `child.before` is `bytes` and the very first
line of the `KILL` and `RESPONSE` branches, `return_msg =
self.child.before+'.'`, raises `TypeError` (`bytes + str`).  This theorem
evaluates the code at the failing input: `BREAK` still stops the loop and
returns the success value, but a matched `KILL` or `RESPONSE` ends the run
with the uncaught `TypeError` — no payload is returned and, for `KILL`, the
child is not killed (`killed` keeps its prior value, the kill line being
unreachable). -/
theorem claim_C4_control_sentinels (fmt : String → String) (steps : Steps) (st : EngineSt)
    (fuel : Nat) (e : ChildEv) (rest : List ChildEv) (g : StepGroup) (stp : ExStep)
    (h1 : steps[st.step]? = Option.some g)
    (h2 : isNoneGroup g = false)
    (h3 : st.script = e :: rest)
    (h4 : (candidates steps st.step)[e.idx]? = Option.some stp) :
    (stp.resp = Resp.brk →
      runSteps fmt steps (fuel + 1) st =
        (StepsRes.ok, { st with script := rest, before := e.before })) ∧
    (stp.resp = Resp.kill →
      runSteps fmt steps (fuel + 1) st =
        (StepsRes.errType, { st with script := rest, before := e.before }) ∧
      (runSteps fmt steps (fuel + 1) st).2.killed = st.killed) ∧
    (stp.resp = Resp.response →
      runSteps fmt steps (fuel + 1) st =
        (StepsRes.errType, { st with script := rest, before := e.before })) := by
  refine ⟨fun hr => ?_, fun hr => ⟨?_, ?_⟩, fun hr => ?_⟩ <;>
    simp [runSteps, stepIter, afterMatch, h1, h2, h3, h4, hr]

/-- C4 witness: a three-alternative group exercising each sentinel in turn;
`BREAK` succeeds, while `KILL` and `RESPONSE` end the run with the uncaught
`TypeError` and the child stays unkilled. -/
theorem claim_C4_control_sentinels_witness :
    runSteps id [[{ pattern := Option.some "k", resp := Resp.kill },
                  { pattern := Option.some "b", resp := Resp.brk },
                  { pattern := Option.some "r", resp := Resp.response }]] 5
        (initSt [{ idx := 1, before := "t1" }]) =
      (StepsRes.ok, { initSt [] with before := "t1" }) ∧
    (runSteps id [[{ pattern := Option.some "k", resp := Resp.kill },
                  { pattern := Option.some "b", resp := Resp.brk },
                  { pattern := Option.some "r", resp := Resp.response }]] 5
        (initSt [{ idx := 0, before := "t2" }]) =
      (StepsRes.errType, { initSt [] with before := "t2" }) ∧
     (runSteps id [[{ pattern := Option.some "k", resp := Resp.kill },
                  { pattern := Option.some "b", resp := Resp.brk },
                  { pattern := Option.some "r", resp := Resp.response }]] 5
        (initSt [{ idx := 0, before := "t2" }])).2.killed = (initSt [{ idx := 0, before := "t2" }]).killed) ∧
    runSteps id [[{ pattern := Option.some "k", resp := Resp.kill },
                  { pattern := Option.some "b", resp := Resp.brk },
                  { pattern := Option.some "r", resp := Resp.response }]] 5
        (initSt [{ idx := 2, before := "t3" }]) =
      (StepsRes.errType, { initSt [] with before := "t3" }) :=
  ⟨(claim_C4_control_sentinels id
      [[{ pattern := Option.some "k", resp := Resp.kill },
        { pattern := Option.some "b", resp := Resp.brk },
        { pattern := Option.some "r", resp := Resp.response }]]
      (initSt [{ idx := 1, before := "t1" }]) 4 { idx := 1, before := "t1" } []
      [{ pattern := Option.some "k", resp := Resp.kill },
       { pattern := Option.some "b", resp := Resp.brk },
       { pattern := Option.some "r", resp := Resp.response }]
      { pattern := Option.some "b", resp := Resp.brk }
      (by decide) (by decide) rfl (by decide)).1 rfl,
   (claim_C4_control_sentinels id
      [[{ pattern := Option.some "k", resp := Resp.kill },
        { pattern := Option.some "b", resp := Resp.brk },
        { pattern := Option.some "r", resp := Resp.response }]]
      (initSt [{ idx := 0, before := "t2" }]) 4 { idx := 0, before := "t2" } []
      [{ pattern := Option.some "k", resp := Resp.kill },
       { pattern := Option.some "b", resp := Resp.brk },
       { pattern := Option.some "r", resp := Resp.response }]
      { pattern := Option.some "k", resp := Resp.kill }
      (by decide) (by decide) rfl (by decide)).2.1 rfl,
   (claim_C4_control_sentinels id
      [[{ pattern := Option.some "k", resp := Resp.kill },
        { pattern := Option.some "b", resp := Resp.brk },
        { pattern := Option.some "r", resp := Resp.response }]]
      (initSt [{ idx := 2, before := "t3" }]) 4 { idx := 2, before := "t3" } []
      [{ pattern := Option.some "k", resp := Resp.kill },
       { pattern := Option.some "b", resp := Resp.brk },
       { pattern := Option.some "r", resp := Resp.response }]
      { pattern := Option.some "r", resp := Resp.response }
      (by decide) (by decide) rfl (by decide)).2.2 rfl⟩

/-- Helper: unpack an own-range benign match. -/
theorem ownBenign_elim {g : StepGroup} {e : ChildEv} (h : ownBenign g e = true) :
    ∃ stp, g[e.idx]? = Option.some stp ∧ benign stp.resp = true := by
  unfold ownBenign at h
  split at h
  · next stp heq => exact ⟨stp, heq, h⟩
  · cases h

/-- Helper: one loop iteration on an own-range benign match consumes the
event, stays at step 0 and increments the loop counter, tripping the guard
exactly when the counter passes 10. -/
theorem benign_iter (fmt : String → String) (g0 : StepGroup) (tail : Steps) (st : EngineSt)
    (e : ChildEv) (rest : List ChildEv)
    (h0 : isNoneGroup g0 = false)
    (hstep : st.step = 0)
    (hscript : st.script = e :: rest)
    (hown : ownBenign g0 e = true) :
    ∃ sent2 : List String,
      stepIter fmt (g0 :: tail) st =
        if 10 < st.loopDetect + 1 then
          IterOut.done StepsRes.errTooMany
            { st with
                script := rest
                before := e.before
                sent := sent2
                loopDetect := st.loopDetect + 1 }
        else
          IterOut.cont
            { st with
                script := rest
                before := e.before
                sent := sent2
                loopDetect := st.loopDetect + 1 } := by
  obtain ⟨stp, hg, hb⟩ := ownBenign_elim hown
  have hlt : e.idx < g0.length := by
    rcases List.getElem?_eq_some.mp hg with ⟨h, _⟩
    exact h
  have hnle : ¬ (g0.length ≤ e.idx) := Nat.not_le.mpr hlt
  have hcand : (candidates (g0 :: tail) 0)[e.idx]? = Option.some stp := by
    have hc : candidates (g0 :: tail) 0 = g0 ++ (tail[0]?).getD [] := by
      simp [candidates]
    rw [hc, List.getElem?_append_left hlt, hg]
  rcases stp with ⟨pat, resp⟩
  cases resp with
  | noSend =>
      exact ⟨st.sent, by simp [stepIter, hstep, h0, hscript, afterMatch, hcand,
        advanceCheck, hnle]⟩
  | send s =>
      exact ⟨st.sent ++ [fmt s], by simp [stepIter, hstep, h0, hscript, afterMatch, hcand,
        advanceCheck, hnle]⟩
  | kill => simp [benign] at hb
  | brk => simp [benign] at hb
  | response => simp [benign] at hb

/-- Helper: from a state at step 0 whose counter plus the number of pending
own-range benign matches reaches 11, the engine fails with the
too-many-expect error. -/
theorem benign_loop_tooMany (fmt : String → String) (g0 : StepGroup) (tail : Steps) :
    ∀ (evs rest : List ChildEv) (st : EngineSt) (fuel : Nat),
      isNoneGroup g0 = false → st.step = 0 → st.script = evs ++ rest →
      (∀ e ∈ evs, ownBenign g0 e = true) →
      st.loopDetect + evs.length = 11 → st.loopDetect ≤ 10 → evs.length ≤ fuel →
      (runSteps fmt (g0 :: tail) fuel st).1 = StepsRes.errTooMany := by
  intro evs
  induction evs with
  | nil =>
      intro rest st fuel h0 hstep hscript hown hsum hld hfuel
      simp at hsum
      omega
  | cons e evs ih =>
      intro rest st fuel h0 hstep hscript hown hsum hld hfuel
      rw [List.length_cons] at hsum hfuel
      cases fuel with
      | zero => omega
      | succ f =>
          obtain ⟨sent2, hiter⟩ := benign_iter fmt g0 tail st e (evs ++ rest) h0 hstep
            (by rw [hscript]; rfl) (hown e (List.mem_cons_self e evs))
          by_cases hc : 10 < st.loopDetect + 1
          · rw [if_pos hc] at hiter
            simp [runSteps, hiter]
          · rw [if_neg hc] at hiter
            simp only [runSteps, hiter]
            exact ih rest _ f h0 hstep rfl
              (fun x hx => hown x (List.mem_cons_of_mem e hx))
              (by show st.loopDetect + 1 + evs.length = 11; omega)
              (by show st.loopDetect + 1 ≤ 10; omega) (by omega)

/-- Helper: from a state at step 0 whose counter stays within the guard while
the script holds exactly the pending own-range benign matches, the engine
consumes them all and then fails with the end-of-stream error. -/
theorem benign_loop_eof (fmt : String → String) (g0 : StepGroup) (tail : Steps) :
    ∀ (evs : List ChildEv) (st : EngineSt) (fuel : Nat),
      isNoneGroup g0 = false → st.step = 0 → st.script = evs →
      (∀ e ∈ evs, ownBenign g0 e = true) →
      st.loopDetect + evs.length ≤ 10 → evs.length < fuel →
      (runSteps fmt (g0 :: tail) fuel st).1 = StepsRes.errEOF := by
  intro evs
  induction evs with
  | nil =>
      intro st fuel h0 hstep hscript hown hsum hfuel
      cases fuel with
      | zero => omega
      | succ f =>
          exact eof_at_search fmt (g0 :: tail) st f g0
            (by simp [hstep]) h0 hscript
  | cons e evs ih =>
      intro st fuel h0 hstep hscript hown hsum hfuel
      rw [List.length_cons] at hsum hfuel
      cases fuel with
      | zero => omega
      | succ f =>
          obtain ⟨sent2, hiter⟩ := benign_iter fmt g0 tail st e evs h0 hstep hscript
            (hown e (List.mem_cons_self e evs))
          rw [if_neg (by omega)] at hiter
          simp only [runSteps, hiter]
          exact ih _ f h0 hstep rfl
            (fun x hx => hown x (List.mem_cons_of_mem e hx))
            (by show st.loopDetect + 1 + evs.length ≤ 10; omega) (by omega)

/-- C2: when the first group's own pattern keeps re-matching so the cursor
never advances, the engine raises the too-many-expect `CollectError` after
exactly 11 matches at that step: a script of 11 own-range benign matches
fails with the guard, while after only 10 such matches the engine is still
searching (a then-exhausted stream gives the end-of-stream error, not the
guard), so 10 same-step retries are allowed and the 11th match fails. -/
theorem claim_C2_eleven_matches :
    (∀ (fmt : String → String) (g0 : StepGroup) (tail : Steps) (evs rest : List ChildEv)
       (fuel : Nat),
      isNoneGroup g0 = false → evs.length = 11 → (∀ e ∈ evs, ownBenign g0 e = true) →
      (runSteps fmt (g0 :: tail) (11 + fuel) (initSt (evs ++ rest))).1 =
        StepsRes.errTooMany) ∧
    (∀ (fmt : String → String) (g0 : StepGroup) (tail : Steps) (evs : List ChildEv)
       (fuel : Nat),
      isNoneGroup g0 = false → evs.length = 10 → (∀ e ∈ evs, ownBenign g0 e = true) →
      (runSteps fmt (g0 :: tail) (11 + fuel) (initSt evs)).1 = StepsRes.errEOF) := by
  constructor
  · intro fmt g0 tail evs rest fuel h0 hlen hown
    exact benign_loop_tooMany fmt g0 tail evs rest (initSt (evs ++ rest)) (11 + fuel)
      h0 rfl rfl hown (by simp [initSt, hlen]) (by simp [initSt]) (by omega)
  · intro fmt g0 tail evs fuel h0 hlen hown
    exact benign_loop_eof fmt g0 tail evs (initSt evs) (11 + fuel)
      h0 rfl rfl hown (by simp [initSt, hlen]) (by omega)

/-- C2 witness: a login group whose prompt re-matches forever; 11 matches
trip the guard, 10 leave the engine still reading. -/
theorem claim_C2_eleven_matches_witness :
    (runSteps id
      [[{ pattern := Option.some "Login: ", resp := Resp.send "bob\n" }],
       [{ pattern := Option.some "\\$ ", resp := Resp.noSend }]] (11 + 19)
      (initSt (List.replicate 11 { idx := 0, before := "t" } ++ []))).1 =
        StepsRes.errTooMany ∧
    (runSteps id
      [[{ pattern := Option.some "Login: ", resp := Resp.send "bob\n" }],
       [{ pattern := Option.some "\\$ ", resp := Resp.noSend }]] (11 + 19)
      (initSt (List.replicate 10 { idx := 0, before := "t" }))).1 = StepsRes.errEOF :=
  ⟨claim_C2_eleven_matches.1 id
      [{ pattern := Option.some "Login: ", resp := Resp.send "bob\n" }]
      [[{ pattern := Option.some "\\$ ", resp := Resp.noSend }]]
      (List.replicate 11 { idx := 0, before := "t" }) [] 19
      (by decide) (by decide) (by decide),
   claim_C2_eleven_matches.2 id
      [{ pattern := Option.some "Login: ", resp := Resp.send "bob\n" }]
      [[{ pattern := Option.some "\\$ ", resp := Resp.noSend }]]
      (List.replicate 10 { idx := 0, before := "t" }) 19
      (by decide) (by decide) (by decide)⟩

/-- Helper: one loop iteration on the `None`-pattern sentinel group performs
no read, leaves step, script and before untouched, and increments the loop
counter, tripping the guard exactly when the counter passes 10. -/
theorem noneGroup_iter (fmt : String → String) (steps : Steps) (st : EngineSt) (r : Resp)
    (h1 : steps[st.step]? = Option.some [{ pattern := Option.none, resp := r }])
    (hb : benign r = true) :
    ∃ sent2 : List String,
      stepIter fmt steps st =
        if 10 < st.loopDetect + 1 then
          IterOut.done StepsRes.errTooMany
            { st with
                sent := sent2
                loopDetect := st.loopDetect + 1 }
        else
          IterOut.cont
            { st with
                sent := sent2
                loopDetect := st.loopDetect + 1 } := by
  cases r with
  | noSend =>
      exact ⟨st.sent, by simp [stepIter, h1, isNoneGroup, afterMatch, advanceCheck]⟩
  | send s =>
      exact ⟨st.sent ++ [fmt s],
        by simp [stepIter, h1, isNoneGroup, afterMatch, advanceCheck]⟩
  | kill => simp [benign] at hb
  | brk => simp [benign] at hb
  | response => simp [benign] at hb

/-- Helper: a cursor sitting on a `None`-pattern sentinel group with a benign
response never leaves it, so once the counter is due to reach 11 the engine
fails with the too-many-expect error. -/
theorem noneGroup_loop (fmt : String → String) (steps : Steps) :
    ∀ (k : Nat) (st : EngineSt) (fuel : Nat) (r : Resp),
      steps[st.step]? = Option.some [{ pattern := Option.none, resp := r }] →
      benign r = true →
      st.loopDetect + k = 11 → st.loopDetect ≤ 10 → k ≤ fuel →
      (runSteps fmt steps fuel st).1 = StepsRes.errTooMany := by
  intro k
  induction k with
  | zero => intro st fuel r h1 hb hsum hld hfuel; omega
  | succ k ih =>
      intro st fuel r h1 hb hsum hld hfuel
      cases fuel with
      | zero => omega
      | succ f =>
          obtain ⟨sent2, hiter⟩ := noneGroup_iter fmt steps st r h1 hb
          by_cases hc : 10 < st.loopDetect + 1
          · rw [if_pos hc] at hiter
            simp [runSteps, hiter]
          · rw [if_neg hc] at hiter
            simp only [runSteps, hiter]
            exact ih _ f r h1 hb (by show st.loopDetect + 1 + k = 11; omega)
              (by show st.loopDetect + 1 ≤ 10; omega) (by omega)

/-- C3 counterexample: a two-group sequence whose first group is the single
`None`-pattern sentinel step, with a stream in which the next group's
pattern would match.  The claim says the sentinel group is immediately
satisfied and the cursor advances; instead the engine never advances (the
final cursor is still 0), never reads the stream (the script still holds its
event), re-sends the response on every iteration (11 copies sent) and fails
with the too-many-expect error. -/
theorem claim_C3_counterexample :
    runSteps id
      [[{ pattern := Option.none, resp := Resp.send "x\n" }],
       [{ pattern := Option.some "\\$ ", resp := Resp.noSend }]] 30
      (initSt [{ idx := 0, before := "p" }]) =
      (StepsRes.errTooMany,
       { step := 0
         loopDetect := 11
         script := [{ idx := 0, before := "p" }]
         sent := List.replicate 11 "x\n"
         before := ""
         killed := false }) := by decide

/-- C3 as amended: a group consisting of a single Step whose pattern is the
`None` sentinel performs no transport read and sends the associated response
if any, but it does not advance the cursor: the state after the iteration
has the same step and script, only the sent log and the retry counter grow,
so with a benign (non-sentinel) response the loop-detection guard raises the
too-many-expect `CollectError` after 11 processings of the group. -/
theorem claim_C3_amended :
    (∀ (fmt : String → String) (steps : Steps) (st : EngineSt),
      steps[st.step]? = Option.some [{ pattern := Option.none, resp := Resp.noSend }] →
      st.loopDetect ≤ 9 →
      stepIter fmt steps st = IterOut.cont { st with loopDetect := st.loopDetect + 1 }) ∧
    (∀ (fmt : String → String) (steps : Steps) (st : EngineSt) (s : String),
      steps[st.step]? = Option.some [{ pattern := Option.none, resp := Resp.send s }] →
      st.loopDetect ≤ 9 →
      stepIter fmt steps st =
        IterOut.cont
          { st with
              sent := st.sent ++ [fmt s]
              loopDetect := st.loopDetect + 1 }) ∧
    (∀ (fmt : String → String) (steps : Steps) (st : EngineSt) (r : Resp) (fuel : Nat),
      steps[st.step]? = Option.some [{ pattern := Option.none, resp := r }] →
      benign r = true → st.loopDetect = 0 → 11 ≤ fuel →
      (runSteps fmt steps fuel st).1 = StepsRes.errTooMany) := by
  refine ⟨?_, ?_, ?_⟩
  · intro fmt steps st h1 hld
    simp [stepIter, h1, isNoneGroup, afterMatch, advanceCheck]
    omega
  · intro fmt steps st s h1 hld
    simp [stepIter, h1, isNoneGroup, afterMatch, advanceCheck]
    omega
  · intro fmt steps st r fuel h1 hb hld hfuel
    exact noneGroup_loop fmt steps 11 st fuel r h1 hb (by omega) (by omega) (by omega)

/-- C3 witness: the three amended behaviors at concrete inputs. -/
theorem claim_C3_amended_witness :
    stepIter id [[{ pattern := Option.none, resp := Resp.noSend }]] (initSt []) =
      IterOut.cont { initSt [] with loopDetect := 1 } ∧
    stepIter id [[{ pattern := Option.none, resp := Resp.send "x\n" }]] (initSt []) =
      IterOut.cont
        { initSt [] with
            sent := ["x\n"]
            loopDetect := 1 } ∧
    (runSteps id [[{ pattern := Option.none, resp := Resp.send "x\n" }]] 11 (initSt [])).1 =
      StepsRes.errTooMany :=
  ⟨claim_C3_amended.1 id [[{ pattern := Option.none, resp := Resp.noSend }]] (initSt [])
      (by decide) (by decide),
   claim_C3_amended.2.1 id [[{ pattern := Option.none, resp := Resp.send "x\n" }]] (initSt [])
      "x\n" (by decide) (by decide),
   claim_C3_amended.2.2 id [[{ pattern := Option.none, resp := Resp.send "x\n" }]] (initSt [])
      (Resp.send "x\n") 11 (by decide) (by decide) rfl (by omega)⟩

/-- C1 counterexample: `mrun` over the commands of the spec example, with the
object-level defaults (`expected_pattern=r'\S'`,
`unexpected_pattern=r'<timeout>'`), where the first command completes with
output `1` and the second exceeds its per-command timeout.  The claim says
the result is the dictionary with `1` for key `a` and the timeout sentinel
for key `b`; instead the sentinel result `<timeout>` matches the default
unexpected pattern `<timeout>`, `_filter_result` raises
`UnexpectedResultError`, and the whole batch aborts with no dictionary at
all. -/
theorem claim_C1_counterexample :
    exceptIsOk
      (Expect.mrun defaultSess [("a", "echo 1"), ("b", "sleep 100")]
        (fun c => if c = "echo 1" then CmdRun.done "1" else CmdRun.timedout)
        true Override.inherit Override.inherit Override.inherit).2 = false ∧
    (Expect.mrun defaultSess [("a", "echo 1"), ("b", "sleep 100")]
        (fun c => if c = "echo 1" then CmdRun.done "1" else CmdRun.timedout)
        true Override.inherit Override.inherit Override.inherit).2 ≠
      Except.ok [("a", "1"), ("b", "<timeout>")] := by
  refine ⟨by decide, fun hEq => ?_⟩
  have h1 : exceptIsOk
      (Expect.mrun defaultSess [("a", "echo 1"), ("b", "sleep 100")]
        (fun c => if c = "echo 1" then CmdRun.done "1" else CmdRun.timedout)
        true Override.inherit Override.inherit Override.inherit).2 = false := by decide
  rw [hEq] at h1
  exact Bool.noConfusion h1

/-- Helper: the `mrun` loop with the unexpected-pattern check disabled and
the default expected pattern returns, in input order, one entry per non-empty
key, holding the command output or the `<timeout>` sentinel, provided every
completed output matches `\S`. -/
theorem mrunLoop_no_unexpected (oracle : String → CmdRun) :
    ∀ (cmds : List (String × String)),
      (∀ kc ∈ cmds, kc.1 ≠ "" → rsearch RPat.nonspace (runOut (oracle kc.2)) = true) →
      mrunLoop oracle (Option.some RPat.nonspace) Option.none Option.none cmds =
        Except.ok (cmds.filterMap (fun kc =>
          if kc.1 = "" then Option.none else Option.some (kc.1, runOut (oracle kc.2)))) := by
  intro cmds
  induction cmds with
  | nil => intro h; rfl
  | cons kc rest ih =>
      intro h
      rcases kc with ⟨k, cmd⟩
      by_cases hk : k = ""
      · simp only [mrunLoop, hk, List.filterMap_cons]
        exact ih (fun x hx hne => h x (List.mem_cons_of_mem _ hx) hne)
      · have hsearch : rsearch RPat.nonspace (runOut (oracle cmd)) = true :=
          h (k, cmd) (List.mem_cons_self _ _) hk
        simp only [mrunLoop, List.filterMap_cons, if_neg hk]
        rw [show filterResult (runOut (oracle cmd)) k cmd (Option.some RPat.nonspace)
              Option.none Option.none = Except.ok (runOut (oracle cmd)) by
            simp [filterResult, applyFilterFunc, checkExpected, hsearch]]
        rw [ih (fun x hx hne => h x (List.mem_cons_of_mem _ hx) hne)]

/-- C1 as amended: a command exceeding its per-command timeout yields the
`<timeout>` sentinel as that key's result and the remaining commands of the
batch still run and are returned, provided the unexpected-pattern check does
not flag the sentinel — for example with the per-call unexpected pattern
explicitly absent; under the default object-level unexpected pattern
`<timeout>` the sentinel itself trips the check, raising
`UnexpectedResultError` and aborting the batch (the counterexample). -/
theorem claim_C1_amended (cmds : List (String × String)) (oracle : String → CmdRun)
    (h : ∀ kc ∈ cmds, kc.1 ≠ "" → rsearch RPat.nonspace (runOut (oracle kc.2)) = true) :
    (Expect.mrun defaultSess cmds oracle true Override.inherit
        (Override.use Option.none) Override.inherit).2 =
      Except.ok (cmds.filterMap (fun kc =>
        if kc.1 = "" then Option.none else Option.some (kc.1, runOut (oracle kc.2)))) := by
  simp only [Expect.mrun, defaultSess, Override.resolve]
  rw [mrunLoop_no_unexpected oracle cmds h]
  rfl

/-- C1 witness: with the unexpected-pattern check disabled, the spec example
does return `1` for key `a` and the timeout sentinel for key `b`. -/
theorem claim_C1_amended_witness :
    (Expect.mrun defaultSess [("a", "echo 1"), ("b", "sleep 100")]
        (fun c => if c = "echo 1" then CmdRun.done "1" else CmdRun.timedout)
        true Override.inherit (Override.use Option.none) Override.inherit).2 =
      Except.ok [("a", "1"), ("b", "<timeout>")] := by
  have h := claim_C1_amended [("a", "echo 1"), ("b", "sleep 100")]
    (fun c => if c = "echo 1" then CmdRun.done "1" else CmdRun.timedout) (by decide)
  rw [h]
  rfl

/-- Helper: `run` on a disconnected session reports `NotConnected`. -/
theorem run_not_connected (s : ExpectSess) (cmd : String) (oracle : CmdRun) (ac : Bool)
    (ep up : Override (Option RPat)) (ff : Override (Option FilterFn))
    (h : s.is_connected = false) :
    (Expect.run s cmd oracle ac ep up ff).2 =
      Except.error (CollectErr.notConnected "No expect connection to run your command.") := by
  simp [Expect.run, h]

/-- Helper: `mrun` on a disconnected session reports `NotConnected`. -/
theorem mrun_not_connected (s : ExpectSess) (cmds : List (String × String))
    (oracle : String → CmdRun) (ac : Bool) (ep up : Override (Option RPat))
    (ff : Override (Option FilterFn)) (h : s.is_connected = false) :
    (Expect.mrun s cmds oracle ac ep up ff).2 =
      Except.error (CollectErr.notConnected "No expect connection to run your command.") := by
  simp [Expect.mrun, h]

/-- C9: session state machine of `run`/`mrun`.  Calling `run` or `mrun` on a
session that is not connected raises `NotConnected`.  On a
default-configured session (no `with` block, `auto_close` left enabled) a
`run` call closes the session before returning, so a second `run` or `mrun`
in a row raises `NotConnected`; and an `mrun` call that returns closes the
session before returning (`self.close()` runs after the loop, before the
return), so a second `mrun` or `run` in a row raises `NotConnected` as
well. -/
theorem claim_C9_not_connected_lifecycle :
    (∀ (s : ExpectSess) (cmd : String) (oracle : CmdRun) (ac : Bool)
        (ep up : Override (Option RPat)) (ff : Override (Option FilterFn)),
      s.is_connected = false →
      (Expect.run s cmd oracle ac ep up ff).2 =
        Except.error (CollectErr.notConnected "No expect connection to run your command.")) ∧
    (∀ (s : ExpectSess) (cmds : List (String × String)) (oracle : String → CmdRun) (ac : Bool)
        (ep up : Override (Option RPat)) (ff : Override (Option FilterFn)),
      s.is_connected = false →
      (Expect.mrun s cmds oracle ac ep up ff).2 =
        Except.error (CollectErr.notConnected "No expect connection to run your command.")) ∧
    (∀ (s : ExpectSess) (cmd : String) (oracle : CmdRun)
        (ep up : Override (Option RPat)) (ff : Override (Option FilterFn)),
      s.is_connected = true → s.in_with = false →
      (Expect.run s cmd oracle true ep up ff).1.is_connected = false ∧
      (∀ (cmd2 : String) (oracle2 : CmdRun) (ac2 : Bool)
          (ep2 up2 : Override (Option RPat)) (ff2 : Override (Option FilterFn)),
        (Expect.run (Expect.run s cmd oracle true ep up ff).1 cmd2 oracle2 ac2
            ep2 up2 ff2).2 =
          Except.error
            (CollectErr.notConnected "No expect connection to run your command.")) ∧
      (∀ (cmds2 : List (String × String)) (oracle2 : String → CmdRun) (ac2 : Bool)
          (ep2 up2 : Override (Option RPat)) (ff2 : Override (Option FilterFn)),
        (Expect.mrun (Expect.run s cmd oracle true ep up ff).1 cmds2 oracle2 ac2
            ep2 up2 ff2).2 =
          Except.error
            (CollectErr.notConnected "No expect connection to run your command."))) ∧
    (∀ (s : ExpectSess) (cmds : List (String × String)) (oracle : String → CmdRun)
        (ep up : Override (Option RPat)) (ff : Override (Option FilterFn))
        (lst : List (String × String)),
      s.is_connected = true → s.in_with = false →
      (Expect.mrun s cmds oracle true ep up ff).2 = Except.ok lst →
      (Expect.mrun s cmds oracle true ep up ff).1.is_connected = false ∧
      (∀ (cmds2 : List (String × String)) (oracle2 : String → CmdRun) (ac2 : Bool)
          (ep2 up2 : Override (Option RPat)) (ff2 : Override (Option FilterFn)),
        (Expect.mrun (Expect.mrun s cmds oracle true ep up ff).1 cmds2 oracle2 ac2
            ep2 up2 ff2).2 =
          Except.error
            (CollectErr.notConnected "No expect connection to run your command.")) ∧
      (∀ (cmd2 : String) (oracle2 : CmdRun) (ac2 : Bool)
          (ep2 up2 : Override (Option RPat)) (ff2 : Override (Option FilterFn)),
        (Expect.run (Expect.mrun s cmds oracle true ep up ff).1 cmd2 oracle2 ac2
            ep2 up2 ff2).2 =
          Except.error
            (CollectErr.notConnected "No expect connection to run your command."))) := by
  refine ⟨?_, ?_, ?_, ?_⟩
  · intro s cmd oracle ac ep up ff h
    exact run_not_connected s cmd oracle ac ep up ff h
  · intro s cmds oracle ac ep up ff h
    exact mrun_not_connected s cmds oracle ac ep up ff h
  · intro s cmd oracle ep up ff h1 h2
    have hclosed : (Expect.run s cmd oracle true ep up ff).1.is_connected = false := by
      simp [Expect.run, closeSess, h1, h2]
    exact ⟨hclosed,
      fun cmd2 oracle2 ac2 ep2 up2 ff2 =>
        run_not_connected _ cmd2 oracle2 ac2 ep2 up2 ff2 hclosed,
      fun cmds2 oracle2 ac2 ep2 up2 ff2 =>
        mrun_not_connected _ cmds2 oracle2 ac2 ep2 up2 ff2 hclosed⟩
  · intro s cmds oracle ep up ff lst h1 h2 hok
    have hclosed : (Expect.mrun s cmds oracle true ep up ff).1.is_connected = false := by
      simp only [Expect.mrun, h1, if_true] at hok ⊢
      rcases hm : mrunLoop oracle (ep.resolve s.expected_pattern)
          (up.resolve s.unexpected_pattern) (ff.resolve s.filterFunc) cmds with e | l
      · rw [hm] at hok
        exact absurd hok (by simp)
      · simp [closeSess, h2]
    exact ⟨hclosed,
      fun cmds2 oracle2 ac2 ep2 up2 ff2 =>
        mrun_not_connected _ cmds2 oracle2 ac2 ep2 up2 ff2 hclosed,
      fun cmd2 oracle2 ac2 ep2 up2 ff2 =>
        run_not_connected _ cmd2 oracle2 ac2 ep2 up2 ff2 hclosed⟩

/-- C9 witness: a disconnected session refuses `run` and `mrun`; a connected
default session is closed by a completed `run` and by a returning `mrun`,
after which a second `run` or `mrun` raises in every combination. -/
theorem claim_C9_not_connected_lifecycle_witness :
    (Expect.run { defaultSess with is_connected := false } "pwd" (CmdRun.done "x") true
        Override.inherit Override.inherit Override.inherit).2 =
      Except.error (CollectErr.notConnected "No expect connection to run your command.") ∧
    (Expect.mrun { defaultSess with is_connected := false } [("k", "pwd")]
        (fun _ => CmdRun.done "x") true Override.inherit Override.inherit
        Override.inherit).2 =
      Except.error (CollectErr.notConnected "No expect connection to run your command.") ∧
    (Expect.run defaultSess "pwd" (CmdRun.done "x") true Override.inherit Override.inherit
        Override.inherit).1.is_connected = false ∧
    (Expect.run
        (Expect.run defaultSess "pwd" (CmdRun.done "x") true Override.inherit
          Override.inherit Override.inherit).1 "ls" (CmdRun.done "y") true
        Override.inherit Override.inherit Override.inherit).2 =
      Except.error (CollectErr.notConnected "No expect connection to run your command.") ∧
    (Expect.mrun
        (Expect.run defaultSess "pwd" (CmdRun.done "x") true Override.inherit
          Override.inherit Override.inherit).1 [("j", "ls")] (fun _ => CmdRun.done "y") true
        Override.inherit Override.inherit Override.inherit).2 =
      Except.error (CollectErr.notConnected "No expect connection to run your command.") ∧
    (Expect.mrun defaultSess [("k", "pwd")] (fun _ => CmdRun.done "x") true
        Override.inherit Override.inherit Override.inherit).1.is_connected = false ∧
    (Expect.mrun
        (Expect.mrun defaultSess [("k", "pwd")] (fun _ => CmdRun.done "x") true
          Override.inherit Override.inherit Override.inherit).1 [("j", "ls")]
        (fun _ => CmdRun.done "y") true Override.inherit Override.inherit
        Override.inherit).2 =
      Except.error (CollectErr.notConnected "No expect connection to run your command.") ∧
    (Expect.run
        (Expect.mrun defaultSess [("k", "pwd")] (fun _ => CmdRun.done "x") true
          Override.inherit Override.inherit Override.inherit).1 "ls" (CmdRun.done "y") true
        Override.inherit Override.inherit Override.inherit).2 =
      Except.error (CollectErr.notConnected "No expect connection to run your command.") :=
  ⟨claim_C9_not_connected_lifecycle.1 { defaultSess with is_connected := false } "pwd"
      (CmdRun.done "x") true Override.inherit Override.inherit Override.inherit rfl,
   claim_C9_not_connected_lifecycle.2.1 { defaultSess with is_connected := false }
      [("k", "pwd")] (fun _ => CmdRun.done "x") true Override.inherit Override.inherit
      Override.inherit rfl,
   (claim_C9_not_connected_lifecycle.2.2.1 defaultSess "pwd" (CmdRun.done "x")
      Override.inherit Override.inherit Override.inherit rfl rfl).1,
   (claim_C9_not_connected_lifecycle.2.2.1 defaultSess "pwd" (CmdRun.done "x")
      Override.inherit Override.inherit Override.inherit rfl rfl).2.1 "ls" (CmdRun.done "y")
      true Override.inherit Override.inherit Override.inherit,
   (claim_C9_not_connected_lifecycle.2.2.1 defaultSess "pwd" (CmdRun.done "x")
      Override.inherit Override.inherit Override.inherit rfl rfl).2.2 [("j", "ls")]
      (fun _ => CmdRun.done "y") true Override.inherit Override.inherit Override.inherit,
   (claim_C9_not_connected_lifecycle.2.2.2 defaultSess [("k", "pwd")]
      (fun _ => CmdRun.done "x") Override.inherit Override.inherit Override.inherit
      [("k", "x")] rfl rfl rfl).1,
   (claim_C9_not_connected_lifecycle.2.2.2 defaultSess [("k", "pwd")]
      (fun _ => CmdRun.done "x") Override.inherit Override.inherit Override.inherit
      [("k", "x")] rfl rfl rfl).2.1 [("j", "ls")] (fun _ => CmdRun.done "y") true
      Override.inherit Override.inherit Override.inherit,
   (claim_C9_not_connected_lifecycle.2.2.2 defaultSess [("k", "pwd")]
      (fun _ => CmdRun.done "x") Override.inherit Override.inherit Override.inherit
      [("k", "x")] rfl rfl rfl).2.2 "ls" (CmdRun.done "y") true
      Override.inherit Override.inherit Override.inherit⟩

end Naghelp
